import Mathlib

/-!
Verification of the completion-gated retry executor (loopai).

This file gives a shallow embedding of the Python sources
`loopai/utils.py`, `loopai/task_executor.py`,
`loopai/natural_language_executor.py` and `loopai/condition_checker.py`.

External effects (the shell, the filesystem, HTTP, the assistant
process, the stdlib JSON parser) are modelled by an explicit
environment record `Env` of abstract response functions; the executor
code of the repository is translated function by function against that
environment.  Python exceptions that escape a function are modelled by
`Except String`; a `KeyError` on a dictionary subscript is modelled as
`Except.error k` where `k` names the missing key.  Mutation of a task
object is modelled by explicit state passing.  Blocking sleeps and
command executions are recorded in an event trace so that "which
commands ran and which waits were applied" is observable.
-/

namespace Loopai

/-- Outcome of one `subprocess.run` call: normal completion with exit
code and both streams, a `TimeoutExpired`, or some other raised
exception. -/
inductive RunOutcome where
  | completed (returncode : Int) (stdout : String) (stderr : String)
  | timedOut
  | raised (message : String)
deriving DecidableEq

/-- A JSON value as far as the repository inspects one after
`json.loads`: a list of condition records, a dict of the four fields
the subtask builder reads, or anything else (`isinstance` checks
fail).  A dict whose `completion_conditions` key holds a non-list is
mapped to `none` for that field. -/
inductive PyJson (Condition : Type) where
  | list (conds : List Condition)
  | dict (name description command : Option String)
      (completion_conditions : Option (List Condition))
  | other
deriving DecidableEq

/-- A completion-condition record (a Python dict); only the keys the
code ever reads are represented, each `none` when the key is absent. -/
structure Condition where
  type : Option String := none
  path : Option String := none
  pattern : Option String := none
  url : Option String := none
  command : Option String := none
  prompt : Option String := none
  timeout : Option Nat := none
deriving DecidableEq

/-- The abstract outside world: one response function per kind of
external effect the code performs. -/
structure Env where
  /-- `subprocess.run(cmd, shell=True, timeout=t)` (command execution,
  test_command probes, the shell-quoted claude confirmation call). -/
  run : String → Nat → RunOutcome
  /-- `subprocess.run(["claude", "code", prompt], timeout=t)` (the
  assistant collaborator). -/
  claudeCode : String → Nat → RunOutcome
  /-- `os.path.exists`. -/
  fileExists : String → Bool
  /-- `open(path).read()`; `none` models a raised read error. -/
  fileRead : String → Option String
  /-- `requests.get(url, timeout=t)`: `some status` on a response,
  `none` models a raised `RequestException`. -/
  httpGet : String → Nat → Option Int
  /-- `json.loads`; `none` models a `JSONDecodeError`. -/
  jsonLoads : String → Option (PyJson Condition)

/-- `Task` dataclass from `utils.py`. -/
structure Task where
  id : String
  name : String
  command : String
  completion_conditions : List Condition
  max_retries : Nat := 3
  timeout : Nat := 300
  retry_count : Nat := 0
  last_error : Option String := none
  last_output : Option String := none

/-- `NaturalLanguageTask` dataclass from `utils.py`; recursive because
of the owned `subtasks` list, hence a one-constructor inductive. -/
inductive NaturalLanguageTask where
  | mk
    (id : String) (name : String) (description : String)
    (max_retries : Nat) (timeout : Nat) (retry_count : Nat)
    (last_error : Option String) (last_output : Option String)
    (generated_command : Option String)
    (generated_conditions : Option (List Condition))
    (subtasks : Option (List NaturalLanguageTask))

namespace NaturalLanguageTask

def id : NaturalLanguageTask → String
  | .mk i _ _ _ _ _ _ _ _ _ _ => i

def name : NaturalLanguageTask → String
  | .mk _ n _ _ _ _ _ _ _ _ _ => n

def description : NaturalLanguageTask → String
  | .mk _ _ d _ _ _ _ _ _ _ _ => d

def max_retries : NaturalLanguageTask → Nat
  | .mk _ _ _ m _ _ _ _ _ _ _ => m

def timeout : NaturalLanguageTask → Nat
  | .mk _ _ _ _ t _ _ _ _ _ _ => t

def retry_count : NaturalLanguageTask → Nat
  | .mk _ _ _ _ _ r _ _ _ _ _ => r

def last_error : NaturalLanguageTask → Option String
  | .mk _ _ _ _ _ _ e _ _ _ _ => e

def last_output : NaturalLanguageTask → Option String
  | .mk _ _ _ _ _ _ _ o _ _ _ => o

def generated_command : NaturalLanguageTask → Option String
  | .mk _ _ _ _ _ _ _ _ c _ _ => c

def generated_conditions : NaturalLanguageTask → Option (List Condition)
  | .mk _ _ _ _ _ _ _ _ _ cs _ => cs

def subtasks : NaturalLanguageTask → Option (List NaturalLanguageTask)
  | .mk _ _ _ _ _ _ _ _ _ _ s => s

/-- `task.last_error = e` (the synthesis-failure assignment). -/
def setLastError (t : NaturalLanguageTask) (e : Option String) :
    NaturalLanguageTask :=
  match t with
  | .mk i n d m tm r _ o c cs s => .mk i n d m tm r e o c cs s

/-- `task.generated_command = c`. -/
def setGeneratedCommand (t : NaturalLanguageTask) (c : Option String) :
    NaturalLanguageTask :=
  match t with
  | .mk i n d m tm r e o _ cs s => .mk i n d m tm r e o c cs s

/-- `task.generated_conditions = cs`. -/
def setGeneratedConditions (t : NaturalLanguageTask)
    (cs : Option (List Condition)) : NaturalLanguageTask :=
  match t with
  | .mk i n d m tm r e o c _ s => .mk i n d m tm r e o c cs s

/-- `task.subtasks = s`. -/
def setSubtasks (t : NaturalLanguageTask)
    (s : Option (List NaturalLanguageTask)) : NaturalLanguageTask :=
  match t with
  | .mk i n d m tm r e o c cs _ => .mk i n d m tm r e o c cs s

/-- The three assignments made after `execute_command` returns:
`last_output = result.output; last_error = result.error;
retry_count += 1`. -/
def recordExecution (t : NaturalLanguageTask) (o e : Option String) :
    NaturalLanguageTask :=
  match t with
  | .mk i n d m tm r _ _ c cs s => .mk i n d m tm (r + 1) e o c cs s

end NaturalLanguageTask

/-- `ExecutionResult` dataclass (the wall-clock `execution_time` field,
which no property here concerns, is not modelled). -/
structure ExecutionResult where
  success : Bool
  output : Option String := none
  error : Option String := none
deriving DecidableEq

/-- One observable step of the executors: a shell command execution
with its timeout bound, a cooldown wait (`apply_cool_down`), or a plain
`time.sleep`. -/
inductive Event where
  | ran (cmd : String) (timeoutSec : Nat)
  | cooled (seconds : Nat)
  | slept (seconds : Nat)
deriving DecidableEq

/-- Python substring test `pat in s` (always true for the empty
pattern): the characters of `pat` occur contiguously in `s`. -/
def strContains (s pat : String) : Bool :=
  decide (pat.toList <:+: s.toList)

/-- `execute_command` from `utils.py`. -/
def execute_command (env : Env) (command : String) (timeout : Nat) :
    ExecutionResult :=
  match env.run command timeout with
  | .completed rc out err =>
    if rc = 0 then { success := true, output := some out }
    else { success := false, output := some out, error := some err }
  | .timedOut =>
    { success := false,
      error := some ("コマンドがタイムアウトしました (" ++ toString timeout ++ "秒)") }
  | .raised m =>
    { success := false,
      error := some ("コマンド実行中にエラーが発生しました: " ++ m) }

/-- `check_file_exists` from `utils.py`. -/
def check_file_exists (env : Env) (file_path : String) : Bool :=
  env.fileExists file_path

/-- `check_output_contains` from `utils.py`. -/
def check_output_contains (output pattern : String) : Bool :=
  strContains output pattern

/-- `check_output_not_contains` from `utils.py`. -/
def check_output_not_contains (output pattern : String) : Bool :=
  !strContains output pattern

/-- `check_file_contains` from `utils.py`. -/
def check_file_contains (env : Env) (file_path pattern : String) : Bool :=
  if env.fileExists file_path then
    match env.fileRead file_path with
    | some content => strContains content pattern
    | none => false
  else false

/-- `check_website_exists` from `utils.py`. -/
def check_website_exists (env : Env) (url : String) (timeout : Nat) : Bool :=
  match env.httpGet url timeout with
  | some status => status == 200
  | none => false

/-- `execute_test_command` from `utils.py`. -/
def execute_test_command (env : Env) (command : String) (timeout : Nat) :
    Bool :=
  match env.run command timeout with
  | .completed rc _ _ => rc == 0
  | .timedOut => false
  | .raised _ => false

/-- `check_claude_code_confirmation` from `utils.py`. -/
def check_claude_code_confirmation (env : Env) (prompt : String)
    (timeout : Nat) : Bool :=
  match env.run ("claude code \"" ++ prompt ++ "\"") timeout with
  | .completed rc out _ => rc == 0 && strContains out "OK"
  | .timedOut => false
  | .raised _ => false

/-- The seven recognised condition-type strings plus the unknown case:
the dispatch performed by the `if`/`elif` chain of `check_condition`
(and, identically, of `ConditionChecker._check_single_condition`). -/
inductive CondKind where
  | kFileExists | kOutputContains | kOutputNotContains | kFileContains
  | kWebsiteExists | kTestCommand | kClaudeConfirmation | kUnknown
deriving DecidableEq

/-- Which branch of the `if`/`elif` chain a `type` value selects. -/
def condKindOf : Option String → CondKind
  | some "file_exists" => .kFileExists
  | some "output_contains" => .kOutputContains
  | some "output_not_contains" => .kOutputNotContains
  | some "file_contains" => .kFileContains
  | some "website_exists" => .kWebsiteExists
  | some "test_command" => .kTestCommand
  | some "claude_code_confirmation" => .kClaudeConfirmation
  | _ => .kUnknown

/-- `check_condition` from `utils.py`, parametrised by the only task
field it reads (`task.last_output`).  `Except.error k` models the
`KeyError` a subscript `condition[k]` raises when the key is absent;
the `ok false` answers on the `url`/`command`/`prompt` kinds are the
printed-warning-and-`False` branches. -/
def check_condition_out (env : Env) (condition : Condition)
    (last_output : Option String) : Except String Bool :=
  match condKindOf condition.type with
  | .kFileExists =>
    match condition.path with
    | none => .error "path"
    | some p => .ok (check_file_exists env p)
  | .kOutputContains =>
    match last_output with
    | none => .ok false
    | some out =>
      match condition.pattern with
      | none => .error "pattern"
      | some pat => .ok (check_output_contains out pat)
  | .kOutputNotContains =>
    match last_output with
    | none => .ok true
    | some out =>
      match condition.pattern with
      | none => .error "pattern"
      | some pat => .ok (check_output_not_contains out pat)
  | .kFileContains =>
    match condition.path with
    | none => .error "path"
    | some p =>
      match condition.pattern with
      | none => .error "pattern"
      | some pat => .ok (check_file_contains env p pat)
  | .kWebsiteExists =>
    match condition.url with
    | none => .ok false
    | some u =>
      if u = "" then .ok false
      else .ok (check_website_exists env u (condition.timeout.getD 10))
  | .kTestCommand =>
    match condition.command with
    | none => .ok false
    | some c =>
      if c = "" then .ok false
      else .ok (execute_test_command env c (condition.timeout.getD 60))
  | .kClaudeConfirmation =>
    match condition.prompt with
    | none => .ok false
    | some p =>
      if p = "" then .ok false
      else .ok (check_claude_code_confirmation env p (condition.timeout.getD 120))
  | .kUnknown => .ok false

/-- `check_condition(condition, task)` from `utils.py`. -/
def check_condition (env : Env) (condition : Condition) (task : Task) :
    Except String Bool :=
  check_condition_out env condition task.last_output

/-- The `for` loop of `check_all_conditions`: stops at the first
condition that evaluates false; a raised `KeyError` propagates. -/
def check_conditions_list (env : Env) (conds : List Condition)
    (last_output : Option String) : Except String Bool :=
  match conds with
  | [] => .ok true
  | c :: rest => do
    let b ← check_condition_out env c last_output
    if b then check_conditions_list env rest last_output else pure false

/-- `check_all_conditions` from `utils.py`. -/
def check_all_conditions (env : Env) (task : Task) : Except String Bool :=
  check_conditions_list env task.completion_conditions task.last_output

/-- The decision of `should_apply_cool_down`, on the two fields it
reads (the computed `hash` of the error text is dead code: the
function returns `True` unconditionally past the first guard). -/
def should_apply_cool_down_core (retry_count : Nat)
    (last_error : Option String) : Bool :=
  if retry_count = 0 || last_error.isNone then false else true

/-- `should_apply_cool_down` from `utils.py`. -/
def should_apply_cool_down (task : Task) : Bool :=
  should_apply_cool_down_core task.retry_count task.last_error

/-- `should_apply_cool_down` as invoked on a `NaturalLanguageTask`
(duck-typed in the source). -/
def nl_should_apply_cool_down (task : NaturalLanguageTask) : Bool :=
  should_apply_cool_down_core task.retry_count task.last_error

/-- How a Python f-string renders an `Optional[str]` value. -/
def pyStr : Option String → String
  | none => "None"
  | some s => s

/-- The prompt built by `generate_command_from_description`. -/
def commandSynthesisPrompt (description : String) : String :=
  "\n以下の自然言語タスク説明を、実行可能なClaude Codeコマンドに変換してください。\n\n" ++
  "タスク説明: " ++ description ++ "\n\n" ++
  "要件:\n1. 実行可能なコマンドを生成してください\n2. 出力結果がわかるようにしてください\n" ++
  "3. エラー処理を含めてください\n4. コマンドは一行で記述してください\n\n" ++
  "生成したコマンドだけを返してください:\n"

/-- The prompt built by `generate_completion_conditions`. -/
def conditionSynthesisPrompt (description command : String) : String :=
  "\n以下のタスク情報から、適切な完了条件をJSON形式で生成してください。\n\n" ++
  "タスク説明: " ++ description ++ "\n生成されたコマンド: " ++ command ++ "\n\n" ++
  "完了条件の種類:\n- output_contains: 出力に特定のパターンが含まれる\n" ++
  "- file_exists: 特定のファイルが存在する\n- file_contains: ファイルに特定のパターンが含まれる\n" ++
  "- website_exists: Webサイトにアクセスできる\n- claude_code_confirmation: Claude Codeで確認できる\n\n" ++
  "要件:\n1. タスクが完了したことを確認できる条件を2-3個生成してください\n" ++
  "2. JSON形式で返してください\n3. 各条件にはtypeと必要なパラメータを含めてください\n\n" ++
  "JSON形式で返してください:\n"

/-- The prompt built by `analyze_failure_and_improve`. -/
def failureAnalysisPrompt (t : NaturalLanguageTask) : String :=
  "\n以下のタスクが失敗しました。原因を分析し、改善されたコマンドを生成してください。\n\n" ++
  "タスクID: " ++ t.id ++ "\nタスク名: " ++ t.name ++ "\nタスク説明: " ++ t.description ++
  "\n生成されたコマンド: " ++ pyStr t.generated_command ++
  "\n最後の出力: " ++ pyStr t.last_output ++ "\n最後のエラー: " ++ pyStr t.last_error ++ "\n\n" ++
  "要件:\n1. 失敗の原因を分析してください\n2. 改善されたコマンドを生成してください\n" ++
  "3. エラーを回避するための対策を含めてください\n4. コマンドは一行で記述してください\n\n" ++
  "改善されたコマンドだけを返してください:\n"

/-- The prompt built by `create_subtask_for_improvement`. -/
def subtaskSynthesisPrompt (mainName improvement : String) : String :=
  "\n以下の改善タスクから、実行可能なサブタスクを生成してください。\n\n" ++
  "メインタスク: " ++ mainName ++ "\n改善内容: " ++ improvement ++ "\n\n" ++
  "要件:\n1. 具体的な実行コマンドを生成してください\n2. 適切な完了条件を設定してください\n" ++
  "3. サブタスクの目的を明確にしてください\n\n" ++
  "サブタスク情報をJSON形式で返してください:\n"

/-- Python `str.strip()` on the character list: leading and trailing
whitespace removed. -/
def stripChars (l : List Char) : List Char :=
  ((l.dropWhile Char.isWhitespace).reverse.dropWhile Char.isWhitespace).reverse

/-- Python `str.strip()`. -/
def pyStrip (s : String) : String := String.mk (stripChars s.data)

/-- Python `str.split('\n')` on the character list. -/
def splitLinesAux : List Char → List (List Char)
  | [] => [[]]
  | c :: cs =>
    match splitLinesAux cs with
    | [] => [[]]
    | g :: gs => if c = '\n' then [] :: g :: gs else (c :: g) :: gs

/-- Python `str.split('\n')`. -/
def pySplitNl (s : String) : List String := (splitLinesAux s.data).map String.mk

/-- Python `s.startswith(pre)`. -/
def pyStartsWith (s pre : String) : Bool := decide (pre.data <+: s.data)

/-- Python `'\n'.join(lines)`. -/
def pyJoinNl : List String → String
  | [] => ""
  | [x] => x
  | x :: y :: rest => x ++ "\n" ++ pyJoinNl (y :: rest)

/-- The line-extraction loop shared by `generate_command_from_description`
and `analyze_failure_and_improve`: the first stripped line of the
stripped stdout that is non-empty, does not start with a comment mark,
and does not start with the given label; if none, the stripped
stdout itself. -/
def extractLine (label stdout : String) : String :=
  let lines := (pySplitNl (pyStrip stdout)).map pyStrip
  match lines.find? (fun l =>
      !(l = "") && !pyStartsWith l "#" && !pyStartsWith l label) with
  | some l => l
  | none => pyStrip stdout

/-- `line.count(c)` for a single character. -/
def countChar (s : String) (c : Char) : Nat :=
  (s.toList.filter (fun x => x = c)).length

/-- The `json_start` scan: index of the first line whose stripped form
starts with an opening brace. -/
def findJsonStart : List String → Option Nat
  | [] => none
  | l :: rest =>
    if pyStartsWith (pyStrip l) "\x7b" then some 0
    else (findJsonStart rest).map (fun i => i + 1)

/-- The `json_end` scan: running brace balance over the raw lines from
`json_start`; the first index at which the balance is zero. -/
def scanJsonEnd : List String → Int → Nat → Option Nat
  | [], _, _ => none
  | l :: rest, balance, idx =>
    let b := balance + (countChar l '\x7b' : Int) - (countChar l '\x7d' : Int)
    if b = 0 then some idx else scanJsonEnd rest b (idx + 1)

/-- The JSON-block extraction shared by `generate_completion_conditions`
and `create_subtask_for_improvement`: the raw lines from `json_start`
to `json_end` inclusive, rejoined with newlines; `none` when either
scan fails. -/
def extractJsonBlock (stdout : String) : Option String :=
  let lines := pySplitNl (pyStrip stdout)
  match findJsonStart lines with
  | none => none
  | some s =>
    match scanJsonEnd (lines.drop s) 0 s with
    | none => none
    | some e => some (pyJoinNl ((lines.drop s).take (e - s + 1)))

/-- `generate_command_from_description` from `utils.py`; `Except.error`
models the exception the function raises on assistant failure (the
inner raise is re-wrapped by the general handler). -/
def generate_command_from_description (env : Env) (description : String)
    (timeout : Nat) : Except String String :=
  match env.claudeCode (commandSynthesisPrompt description) timeout with
  | .completed rc out err =>
    if rc = 0 then .ok (extractLine "生成したコマンド" out)
    else .error ("Claude Codeの実行中にエラーが発生しました: Claude Codeの実行に失敗: " ++ err)
  | .timedOut => .error "Claude Codeの実行がタイムアウトしました"
  | .raised m => .error ("Claude Codeの実行中にエラーが発生しました: " ++ m)

/-- The default condition set returned by
`generate_completion_conditions` on every degraded path. -/
def default_conditions : List Condition :=
  [{ type := some "output_contains", pattern := some "完了" }]

/-- The JSON-decoding pipeline shared by `generate_completion_conditions`
and `create_subtask_for_improvement`: extract the brace-delimited block
from stdout and feed it to `json.loads`; `none` when no block is found
or decoding raises. -/
def loadJsonFromStdout (env : Env) (stdout : String) :
    Option (PyJson Condition) :=
  match extractJsonBlock stdout with
  | none => none
  | some js => env.jsonLoads js

/-- `generate_completion_conditions` from `utils.py`; total — every
failure path returns the default condition set. -/
def generate_completion_conditions (env : Env) (description command : String)
    (timeout : Nat) : List Condition :=
  match env.claudeCode (conditionSynthesisPrompt description command) timeout with
  | .completed rc out _ =>
    if rc = 0 then
      match loadJsonFromStdout env out with
      | some (.list conds) => conds
      | _ => default_conditions
    else default_conditions
  | .timedOut => default_conditions
  | .raised _ => default_conditions

/-- `analyze_failure_and_improve` from `utils.py`; raises (models as
`Except.error`) on every assistant failure. -/
def analyze_failure_and_improve (env : Env) (t : NaturalLanguageTask)
    (timeout : Nat) : Except String String :=
  match env.claudeCode (failureAnalysisPrompt t) timeout with
  | .completed rc out err =>
    if rc = 0 then .ok (extractLine "改善されたコマンド" out)
    else .error ("Claude Codeの実行中にエラーが発生しました: Claude Codeの実行に失敗: " ++ err)
  | .timedOut => .error "Claude Codeの実行がタイムアウトしました"
  | .raised m => .error ("Claude Codeの実行中にエラーが発生しました: " ++ m)

/-- The `{"type": "output_contains", "pattern": "成功"}` default
condition of `create_subtask_for_improvement`. -/
def subtask_default_conditions : List Condition :=
  [{ type := some "output_contains", pattern := some "成功" }]

/-- The fallback subtask returned by `create_subtask_for_improvement`
on every degraded path (assistant failure, no JSON, bad JSON). -/
def default_subtask (main : NaturalLanguageTask) (improvement : String) :
    NaturalLanguageTask :=
  .mk (main.id ++ "_sub_" ++ toString (main.retry_count + 1))
    ("改善サブタスク" ++ toString (main.retry_count + 1)) improvement
    2 120 0 none none
    (some ("echo '改善処理を実行します: " ++ improvement ++ "'"))
    (some subtask_default_conditions) none

/-- `create_subtask_for_improvement` from `utils.py`; total — every
failure path returns the default subtask.  In every branch the subtask
carries `max_retries=2`, `timeout=120` and no subtasks of its own. -/
def create_subtask_for_improvement (env : Env) (main : NaturalLanguageTask)
    (improvement : String) (timeout : Nat) : NaturalLanguageTask :=
  match env.claudeCode (subtaskSynthesisPrompt main.name improvement) timeout with
  | .completed rc out _ =>
    if rc = 0 then
      match loadJsonFromStdout env out with
      | some (.dict nm ds cmd conds) =>
        .mk (main.id ++ "_sub_" ++ toString (main.retry_count + 1))
          (nm.getD ("サブタスク" ++ toString (main.retry_count + 1)))
          (ds.getD improvement) 2 120 0 none none
          (some (cmd.getD "")) (some (conds.getD subtask_default_conditions)) none
      | _ => default_subtask main improvement
    else default_subtask main improvement
  | .timedOut => default_subtask main improvement
  | .raised _ => default_subtask main improvement

/-- `TaskExecutor.execute_task`: one attempt of a plain task.  Returns
the mutated task, the success flag, and the trace of the attempt. -/
def execute_task (env : Env) (t : Task) : Task × Bool × List Event :=
  let coolEv : List Event := if should_apply_cool_down t then [.cooled 60] else []
  let r := execute_command env t.command t.timeout
  ({ t with last_output := r.output, last_error := r.error,
            retry_count := t.retry_count + 1 },
   r.success, coolEv ++ [.ran t.command t.timeout])

/-- The per-condition display pass of
`TaskExecutor._check_completion_conditions`, run when not all
conditions are met: it re-evaluates every declared condition, so a
`KeyError` raised by any one of them propagates even though
`check_all_conditions` had already returned. -/
def check_conditions_display (env : Env) (conds : List Condition)
    (last_output : Option String) : Except String Unit :=
  match conds with
  | [] => .ok ()
  | c :: rest => do
    let _ ← check_condition_out env c last_output
    check_conditions_display env rest last_output

/-- `TaskExecutor._check_completion_conditions`. -/
def task_check_completion_conditions (env : Env) (t : Task) :
    Except String Bool := do
  let allMet ← check_all_conditions env t
  if allMet then pure true
  else do
    check_conditions_display env t.completion_conditions t.last_output
    pure false

/-- The `for attempt in range(1, max_attempts + 1)` loop of
`TaskExecutor.execute_task_until_completion`, by recursion on the
remaining attempts.  The environment is indexed by attempt number so
that the outside world may differ between attempts. -/
def task_loop (env : Nat → Env) :
    Nat → Nat → Task → Except String (Task × Bool × List Event)
  | _, 0, t => .ok (t, false, [])
  | attempt, remaining + 1, t =>
    let p := execute_task (env attempt) t
    match task_check_completion_conditions (env attempt) p.1 with
    | .error k => .error k
    | .ok true => .ok (p.1, true, p.2.2)
    | .ok false =>
      let waitEv : List Event :=
        if remaining > 0 then
          if p.2.1 then [.slept 10]
          else if should_apply_cool_down p.1 then [.cooled 60] else [.slept 30]
        else []
      match task_loop env (attempt + 1) remaining p.1 with
      | .error k => .error k
      | .ok s => .ok (s.1, s.2.1, p.2.2 ++ waitEv ++ s.2.2)

/-- `TaskExecutor.execute_task_until_completion`. -/
def execute_task_until_completion (env : Nat → Env) (t : Task) :
    Except String (Task × Bool × List Event) :=
  task_loop env 1 t.max_retries t

/-- `NaturalLanguageTaskExecutor._generate_initial_conditions`: the
truthiness test on `task.generated_command` sends both an absent and an
empty command to the default condition set. -/
def nl_generate_initial_conditions (env : Env) (t : NaturalLanguageTask) :
    List Condition :=
  match t.generated_command with
  | some c =>
    if c = "" then default_conditions
    else generate_completion_conditions env t.description c t.timeout
  | none => default_conditions

/-- The part of `execute_natural_language_task` after command synthesis:
lazy condition synthesis, the cooldown consult, the command execution,
and the three state assignments. -/
def execute_nl_body (env : Env) (t : NaturalLanguageTask) :
    NaturalLanguageTask × Bool × List Event :=
  let t1 :=
    match t.generated_conditions with
    | none => t.setGeneratedConditions (some (nl_generate_initial_conditions env t))
    | some _ => t
  let coolEv : List Event := if nl_should_apply_cool_down t1 then [.cooled 60] else []
  let cmd := t1.generated_command.getD ""
  let r := execute_command env cmd t1.timeout
  (t1.recordExecution r.output r.error, r.success, coolEv ++ [.ran cmd t1.timeout])

/-- `NaturalLanguageTaskExecutor.execute_natural_language_task`: one
attempt of a natural-language task.  A raising command synthesis is
caught: the error text is stored and the attempt reports `false`
without executing anything. -/
def execute_natural_language_task (env : Env) (t : NaturalLanguageTask) :
    NaturalLanguageTask × Bool × List Event :=
  match t.generated_command with
  | none =>
    match generate_command_from_description env t.description t.timeout with
    | .error e => (t.setLastError (some e), false, [])
    | .ok cmd => execute_nl_body env (t.setGeneratedCommand (some cmd))
  | some _ => execute_nl_body env t

/-- The condition fold of
`NaturalLanguageTaskExecutor._check_completion_conditions`: unlike
`check_all_conditions` it evaluates every condition (no
short-circuit), and a raised `KeyError` propagates. -/
def nl_check_conditions_list (env : Env) (conds : List Condition)
    (last_output : Option String) : Except String Bool :=
  match conds with
  | [] => .ok true
  | c :: rest => do
    let b ← check_condition_out env c last_output
    let r ← nl_check_conditions_list env rest last_output
    pure (b && r)

/-- `NaturalLanguageTaskExecutor._check_completion_conditions`: a
falsy (`None` or empty) `generated_conditions` is "not complete". -/
def nl_check_completion_conditions (env : Env) (t : NaturalLanguageTask) :
    Except String Bool :=
  match t.generated_conditions with
  | none => .ok false
  | some [] => .ok false
  | some (c :: cs) => nl_check_conditions_list env (c :: cs) t.last_output

/-- The improvement request used by
`NaturalLanguageTaskExecutor._execute_improvement_subtasks`. -/
def improvementRequest : String :=
  "このタスクの完了条件を満たすために、どのような改善を行うべきか分析してください"

/-- The improvement request used by
`NaturalLanguageTaskExecutor._analyze_and_improve`. -/
def analyzeImprovementRequest : String :=
  "タスク失敗の原因を分析し、改善策を実行する"

/-- The subtask `for` loop of `_execute_improvement_subtasks`: each
subtask is executed once (mutating it in place); the loop stops at the
first failing subtask. -/
def run_subtask_list (env : Env) :
    List NaturalLanguageTask → List NaturalLanguageTask × Bool × List Event
  | [] => ([], true, [])
  | s :: rest =>
    let p := execute_natural_language_task env s
    if p.2.1 then
      let q := run_subtask_list env rest
      (p.1 :: q.1, q.2.1, p.2.2 ++ q.2.2)
    else (p.1 :: rest, false, p.2.2)

/-- `NaturalLanguageTaskExecutor._execute_improvement_subtasks`: spawn
a single improvement subtask when the task owns none (a falsy — absent
or empty — subtask list), then execute the owned subtasks in order. -/
def execute_improvement_subtasks (env : Env) (t : NaturalLanguageTask) :
    NaturalLanguageTask × Bool × List Event :=
  let t0 :=
    match t.subtasks with
    | none =>
      t.setSubtasks (some [create_subtask_for_improvement env t improvementRequest t.timeout])
    | some [] =>
      t.setSubtasks (some [create_subtask_for_improvement env t improvementRequest t.timeout])
    | some _ => t
  let q := run_subtask_list env (t0.subtasks.getD [])
  (t0.setSubtasks (some q.1), q.2.1, q.2.2)

/-- `NaturalLanguageTaskExecutor._analyze_and_improve`: ask the
assistant for a repaired command (a raising analysis is caught and
reported as `false` with the task unchanged), build a corrective
subtask carrying it, execute that subtask once, and promote the
repaired command to the main task exactly when the subtask
succeeded. -/
def analyze_and_improve (env : Env) (t : NaturalLanguageTask) :
    NaturalLanguageTask × Bool × List Event :=
  match analyze_failure_and_improve env t t.timeout with
  | .error _ => (t, false, [])
  | .ok improved =>
    let sub := (create_subtask_for_improvement env t analyzeImprovementRequest
        t.timeout).setGeneratedCommand (some improved)
    let p := execute_natural_language_task env sub
    if p.2.1 then (t.setGeneratedCommand (some improved), true, p.2.2)
    else (t, false, p.2.2)

/-- The attempt loop of
`NaturalLanguageTaskExecutor.execute_natural_language_task_until_completion`,
by recursion on remaining attempts; the corrective branch after an
incomplete attempt is the success/failure split of the source. -/
def nl_loop (env : Nat → Env) :
    Nat → Nat → NaturalLanguageTask →
    Except String (NaturalLanguageTask × Bool × List Event)
  | _, 0, t => .ok (t, false, [])
  | attempt, remaining + 1, t =>
    let p := execute_natural_language_task (env attempt) t
    match nl_check_completion_conditions (env attempt) p.1 with
    | .error k => .error k
    | .ok true => .ok (p.1, true, p.2.2)
    | .ok false =>
      let q :=
        if p.2.1 then execute_improvement_subtasks (env attempt) p.1
        else analyze_and_improve (env attempt) p.1
      if q.2.1 then
        match nl_loop env (attempt + 1) remaining q.1 with
        | .error k => .error k
        | .ok s => .ok (s.1, s.2.1, p.2.2 ++ q.2.2 ++ [Event.slept 5] ++ s.2.2)
      else
        let waitEv : List Event :=
          if remaining > 0 then
            if nl_should_apply_cool_down q.1 then [.cooled 60] else [.slept 30]
          else []
        match nl_loop env (attempt + 1) remaining q.1 with
        | .error k => .error k
        | .ok s => .ok (s.1, s.2.1, p.2.2 ++ q.2.2 ++ waitEv ++ s.2.2)

/-- `NaturalLanguageTaskExecutor.execute_natural_language_task_until_completion`. -/
def execute_natural_language_task_until_completion (env : Nat → Env)
    (t : NaturalLanguageTask) :
    Except String (NaturalLanguageTask × Bool × List Event) :=
  nl_loop env 1 t.max_retries t

/-- `ConditionChecker._check_single_condition` from
`condition_checker.py`, parametrised by the only task field it reads.
It differs from `check_condition` in that the output kinds read
`task.last_output or ""` (so a missing pattern raises even with no
output, and the empty pattern is found in the empty default), and in
that the `url`/`command`/`prompt` keys are read by subscript (a missing
key raises) with no emptiness guard. -/
def checker_check_single_condition_out (env : Env) (condition : Condition)
    (last_output : Option String) : Except String Bool :=
  match condKindOf condition.type with
  | .kFileExists =>
    match condition.path with
    | none => .error "path"
    | some p => .ok (env.fileExists p)
  | .kOutputContains =>
    match condition.pattern with
    | none => .error "pattern"
    | some pat => .ok (strContains (last_output.getD "") pat)
  | .kOutputNotContains =>
    match condition.pattern with
    | none => .error "pattern"
    | some pat => .ok (!strContains (last_output.getD "") pat)
  | .kFileContains =>
    match condition.path with
    | none => .error "path"
    | some p =>
      match condition.pattern with
      | none => .error "pattern"
      | some pat =>
        .ok (if env.fileExists p then
              match env.fileRead p with
              | some content => strContains content pat
              | none => false
            else false)
  | .kWebsiteExists =>
    match condition.url with
    | none => .error "url"
    | some u =>
      .ok (match env.httpGet u (condition.timeout.getD 10) with
           | some status => status == 200
           | none => false)
  | .kTestCommand =>
    match condition.command with
    | none => .error "command"
    | some c =>
      .ok (match env.run c (condition.timeout.getD 60) with
           | .completed rc _ _ => rc == 0
           | .timedOut => false
           | .raised _ => false)
  | .kClaudeConfirmation =>
    match condition.prompt with
    | none => .error "prompt"
    | some pr =>
      .ok (match env.run ("claude code \"" ++ pr ++ "\"") (condition.timeout.getD 120) with
           | .completed rc out _ => rc == 0 && strContains out "OK"
           | .timedOut => false
           | .raised _ => false)
  | .kUnknown => .ok false

/-- `ConditionChecker._check_single_condition(condition, task)`. -/
def checker_check_single_condition (env : Env) (condition : Condition)
    (task : Task) : Except String Bool :=
  checker_check_single_condition_out env condition task.last_output

/-! Concrete environments and tasks used by witnesses and
counterexamples. -/

/-- A world in which every command fails with exit code 1, the
assistant process raises, and every probe comes back negative. -/
def envTriv : Env :=
  { run := fun _ _ => .completed 1 "" "boom"
    claudeCode := fun _ _ => .raised "assistant unavailable"
    fileExists := fun _ => false
    fileRead := fun _ => none
    httpGet := fun _ _ => none
    jsonLoads := fun _ => none }

/-- `envTriv` on every attempt. -/
def envTrivSeq : Nat → Env := fun _ => envTriv

/-- A world in which every command succeeds with output "done" and the
assistant always answers the single line "fixcmd". -/
def envAssistOk : Env :=
  { run := fun _ _ => .completed 0 "done" ""
    claudeCode := fun _ _ => .completed 0 "fixcmd" ""
    fileExists := fun _ => false
    fileRead := fun _ => none
    httpGet := fun _ _ => none
    jsonLoads := fun _ => none }

/-- Attempt-1 world for the C2 counterexample: initial command
synthesis raises (the command-synthesis prompt fails), every other
assistant consultation answers "fixcmd", and every command succeeds. -/
def envSynthFails : Env :=
  { run := fun _ _ => .completed 0 "ran-ok" ""
    claudeCode := fun p _ =>
      if pyStartsWith p "\n以下の自然言語タスク説明" then .raised "no assistant"
      else .completed 0 "fixcmd" ""
    fileExists := fun _ => false
    fileRead := fun _ => none
    httpGet := fun _ _ => none
    jsonLoads := fun _ => none }

/-- Attempt-2 world for the C2 counterexample: the assistant fails with
a non-zero exit (condition synthesis degrades to the default), the
promoted command "fixcmd" succeeds with output "hello", and every other
command fails. -/
def envRunsPromoted : Env :=
  { run := fun c _ => if c = "fixcmd" then .completed 0 "hello" "" else .completed 1 "" "bad"
    claudeCode := fun _ _ => .completed 1 "" "nope"
    fileExists := fun _ => false
    fileRead := fun _ => none
    httpGet := fun _ _ => none
    jsonLoads := fun _ => none }

/-- The attempt-indexed environment of the C2 counterexample. -/
def envC2Seq : Nat → Env := fun n => if n = 1 then envSynthFails else envRunsPromoted

/-- A plain task with no completion conditions. -/
def taskEmptyConds : Task :=
  { id := "t1", name := "empty", command := "false", completion_conditions := [] }

/-- A plain task with an unsatisfiable condition and two attempts. -/
def taskNeverDone : Task :=
  { id := "t2", name := "f", command := "false", max_retries := 2,
    completion_conditions := [{ type := some "file_exists", path := some "/nope" }] }

/-- The final state of `taskNeverDone` after both attempts against
`envTrivSeq`. -/
def taskNeverDoneFinal : Task :=
  { id := "t2", name := "f", command := "false", max_retries := 2,
    completion_conditions := [{ type := some "file_exists", path := some "/nope" }],
    retry_count := 2, last_error := some "boom", last_output := some "" }

/-- The trace of `taskNeverDone` against `envTrivSeq`: two executions,
the between-attempt cooldown and the pre-attempt cooldown. -/
def taskNeverDoneTrace : List Event :=
  [.ran "false" 300, .cooled 60, .cooled 60, .ran "false" 300]

/-- A natural-language task with two attempts and nothing synthesised
yet. -/
def nlTaskFresh : NaturalLanguageTask :=
  .mk "n1" "nlx" "do something" 2 300 0 none none none none none

/-- A natural-language task with a single attempt and nothing
synthesised yet. -/
def nlTaskOneShot : NaturalLanguageTask :=
  .mk "n2" "nly" "do it" 1 300 0 none none none none none

/-- A condition of the `file_exists` kind with the required `path`
parameter absent. -/
def condMissingPath : Condition := { type := some "file_exists" }

/-- A condition of the `website_exists` kind with the required `url`
parameter absent. -/
def condMissingUrl : Condition := { type := some "website_exists" }

/-- An `output_contains` condition whose pattern is the empty string. -/
def condEmptyPattern : Condition :=
  { type := some "output_contains", pattern := some "" }

/-- An `output_not_contains` condition with an ordinary pattern. -/
def condNotContains : Condition :=
  { type := some "output_not_contains", pattern := some "x" }

/-- An `output_contains` condition with an ordinary pattern. -/
def condContainsX : Condition :=
  { type := some "output_contains", pattern := some "x" }

/-- A plain task with captured output "x-files". -/
def taskWithOutput : Task :=
  { id := "t3", name := "o", command := "true", completion_conditions := [],
    last_output := some "x-files" }

/-- A plain task whose first listed condition is missing its required
`path` parameter. -/
def taskBadCondition : Task :=
  { id := "t4", name := "bad", command := "false",
    completion_conditions := [condMissingPath] }

/-- First component of a loop result, when it did not raise. -/
def taskResultCount : Except String (Task × Bool × List Event) → Option Nat
  | .ok (t, _, _) => some t.retry_count
  | .error _ => none

/-- Completion verdict of a loop result, when it did not raise. -/
def taskResultVerdict : Except String (Task × Bool × List Event) → Option Bool
  | .ok (_, b, _) => some b
  | .error _ => none

/-- Final attempt counter of a natural-language loop result, when it
did not raise. -/
def nlResultCount :
    Except String (NaturalLanguageTask × Bool × List Event) → Option Nat
  | .ok (t, _, _) => some t.retry_count
  | .error _ => none

/-- Completion verdict of a natural-language loop result, when it did
not raise. -/
def nlResultVerdict :
    Except String (NaturalLanguageTask × Bool × List Event) → Option Bool
  | .ok (_, b, _) => some b
  | .error _ => none

/-- Whether a synthesis call raised. -/
def synthesisRaised : Except String String → Bool
  | .error _ => true
  | .ok _ => false

/-! Field laws for the `NaturalLanguageTask` updaters. -/

namespace NaturalLanguageTask

@[simp] theorem retry_count_setLastError (t : NaturalLanguageTask) (e : Option String) :
    (t.setLastError e).retry_count = t.retry_count := by cases t; rfl

@[simp] theorem retry_count_setGeneratedCommand (t : NaturalLanguageTask) (c : Option String) :
    (t.setGeneratedCommand c).retry_count = t.retry_count := by cases t; rfl

@[simp] theorem retry_count_setGeneratedConditions (t : NaturalLanguageTask) (cs : Option (List Condition)) :
    (t.setGeneratedConditions cs).retry_count = t.retry_count := by cases t; rfl

@[simp] theorem retry_count_setSubtasks (t : NaturalLanguageTask) (s : Option (List NaturalLanguageTask)) :
    (t.setSubtasks s).retry_count = t.retry_count := by cases t; rfl

@[simp] theorem retry_count_recordExecution (t : NaturalLanguageTask) (o e : Option String) :
    (t.recordExecution o e).retry_count = t.retry_count + 1 := by cases t; rfl

@[simp] theorem last_error_setLastError (t : NaturalLanguageTask) (e : Option String) :
    (t.setLastError e).last_error = e := by cases t; rfl

@[simp] theorem last_error_setGeneratedCommand (t : NaturalLanguageTask) (c : Option String) :
    (t.setGeneratedCommand c).last_error = t.last_error := by cases t; rfl

@[simp] theorem last_error_setGeneratedConditions (t : NaturalLanguageTask) (cs : Option (List Condition)) :
    (t.setGeneratedConditions cs).last_error = t.last_error := by cases t; rfl

@[simp] theorem last_error_setSubtasks (t : NaturalLanguageTask) (s : Option (List NaturalLanguageTask)) :
    (t.setSubtasks s).last_error = t.last_error := by cases t; rfl

@[simp] theorem last_error_recordExecution (t : NaturalLanguageTask) (o e : Option String) :
    (t.recordExecution o e).last_error = e := by cases t; rfl

@[simp] theorem last_output_setLastError (t : NaturalLanguageTask) (e : Option String) :
    (t.setLastError e).last_output = t.last_output := by cases t; rfl

@[simp] theorem last_output_setGeneratedCommand (t : NaturalLanguageTask) (c : Option String) :
    (t.setGeneratedCommand c).last_output = t.last_output := by cases t; rfl

@[simp] theorem last_output_setGeneratedConditions (t : NaturalLanguageTask) (cs : Option (List Condition)) :
    (t.setGeneratedConditions cs).last_output = t.last_output := by cases t; rfl

@[simp] theorem last_output_setSubtasks (t : NaturalLanguageTask) (s : Option (List NaturalLanguageTask)) :
    (t.setSubtasks s).last_output = t.last_output := by cases t; rfl

@[simp] theorem last_output_recordExecution (t : NaturalLanguageTask) (o e : Option String) :
    (t.recordExecution o e).last_output = o := by cases t; rfl

@[simp] theorem generated_command_setLastError (t : NaturalLanguageTask) (e : Option String) :
    (t.setLastError e).generated_command = t.generated_command := by cases t; rfl

@[simp] theorem generated_command_setGeneratedCommand (t : NaturalLanguageTask) (c : Option String) :
    (t.setGeneratedCommand c).generated_command = c := by cases t; rfl

@[simp] theorem generated_command_setGeneratedConditions (t : NaturalLanguageTask) (cs : Option (List Condition)) :
    (t.setGeneratedConditions cs).generated_command = t.generated_command := by cases t; rfl

@[simp] theorem generated_command_setSubtasks (t : NaturalLanguageTask) (s : Option (List NaturalLanguageTask)) :
    (t.setSubtasks s).generated_command = t.generated_command := by cases t; rfl

@[simp] theorem generated_command_recordExecution (t : NaturalLanguageTask) (o e : Option String) :
    (t.recordExecution o e).generated_command = t.generated_command := by cases t; rfl

@[simp] theorem generated_conditions_setLastError (t : NaturalLanguageTask) (e : Option String) :
    (t.setLastError e).generated_conditions = t.generated_conditions := by cases t; rfl

@[simp] theorem generated_conditions_setGeneratedCommand (t : NaturalLanguageTask) (c : Option String) :
    (t.setGeneratedCommand c).generated_conditions = t.generated_conditions := by cases t; rfl

@[simp] theorem generated_conditions_setGeneratedConditions (t : NaturalLanguageTask) (cs : Option (List Condition)) :
    (t.setGeneratedConditions cs).generated_conditions = cs := by cases t; rfl

@[simp] theorem generated_conditions_setSubtasks (t : NaturalLanguageTask) (s : Option (List NaturalLanguageTask)) :
    (t.setSubtasks s).generated_conditions = t.generated_conditions := by cases t; rfl

@[simp] theorem generated_conditions_recordExecution (t : NaturalLanguageTask) (o e : Option String) :
    (t.recordExecution o e).generated_conditions = t.generated_conditions := by cases t; rfl

@[simp] theorem subtasks_setLastError (t : NaturalLanguageTask) (e : Option String) :
    (t.setLastError e).subtasks = t.subtasks := by cases t; rfl

@[simp] theorem subtasks_setGeneratedCommand (t : NaturalLanguageTask) (c : Option String) :
    (t.setGeneratedCommand c).subtasks = t.subtasks := by cases t; rfl

@[simp] theorem subtasks_setGeneratedConditions (t : NaturalLanguageTask) (cs : Option (List Condition)) :
    (t.setGeneratedConditions cs).subtasks = t.subtasks := by cases t; rfl

@[simp] theorem subtasks_setSubtasks (t : NaturalLanguageTask) (s : Option (List NaturalLanguageTask)) :
    (t.setSubtasks s).subtasks = s := by cases t; rfl

@[simp] theorem subtasks_recordExecution (t : NaturalLanguageTask) (o e : Option String) :
    (t.recordExecution o e).subtasks = t.subtasks := by cases t; rfl

@[simp] theorem timeout_setLastError (t : NaturalLanguageTask) (e : Option String) :
    (t.setLastError e).timeout = t.timeout := by cases t; rfl

@[simp] theorem timeout_setGeneratedCommand (t : NaturalLanguageTask) (c : Option String) :
    (t.setGeneratedCommand c).timeout = t.timeout := by cases t; rfl

@[simp] theorem timeout_setGeneratedConditions (t : NaturalLanguageTask) (cs : Option (List Condition)) :
    (t.setGeneratedConditions cs).timeout = t.timeout := by cases t; rfl

@[simp] theorem timeout_setSubtasks (t : NaturalLanguageTask) (s : Option (List NaturalLanguageTask)) :
    (t.setSubtasks s).timeout = t.timeout := by cases t; rfl

@[simp] theorem timeout_recordExecution (t : NaturalLanguageTask) (o e : Option String) :
    (t.recordExecution o e).timeout = t.timeout := by cases t; rfl

@[simp] theorem max_retries_setLastError (t : NaturalLanguageTask) (e : Option String) :
    (t.setLastError e).max_retries = t.max_retries := by cases t; rfl

@[simp] theorem max_retries_setGeneratedCommand (t : NaturalLanguageTask) (c : Option String) :
    (t.setGeneratedCommand c).max_retries = t.max_retries := by cases t; rfl

@[simp] theorem max_retries_setGeneratedConditions (t : NaturalLanguageTask) (cs : Option (List Condition)) :
    (t.setGeneratedConditions cs).max_retries = t.max_retries := by cases t; rfl

@[simp] theorem max_retries_setSubtasks (t : NaturalLanguageTask) (s : Option (List NaturalLanguageTask)) :
    (t.setSubtasks s).max_retries = t.max_retries := by cases t; rfl

@[simp] theorem max_retries_recordExecution (t : NaturalLanguageTask) (o e : Option String) :
    (t.recordExecution o e).max_retries = t.max_retries := by cases t; rfl

end NaturalLanguageTask

/-! Executor lemmas. -/

/-- A non-empty pattern is never found in the empty string. -/
theorem strContains_empty_string (p : String) (hp : p ≠ "") :
    strContains "" p = false := by
  unfold strContains
  simp only [decide_eq_false_iff_not]
  intro hinf
  have hnil : p.toList = [] := List.infix_nil.mp hinf
  exact hp (String.ext hnil)

/-- A zero exit code is the only branch of `execute_command` with a
successful result, and it leaves the error field empty. -/
theorem execute_command_success_error (env : Env) (c : String) (tm : Nat) :
    (execute_command env c tm).success = true →
    (execute_command env c tm).error = none := by
  unfold execute_command
  cases env.run c tm with
  | completed rc out err => by_cases hrc : rc = 0 <;> simp [hrc]
  | timedOut => simp
  | raised m => simp

/-- One plain attempt increments the attempt counter by exactly one. -/
theorem execute_task_retry (env : Env) (t : Task) :
    (execute_task env t).1.retry_count = t.retry_count + 1 := rfl

/-- The condition-synthesis step and the execution step increment the
counter by exactly one. -/
theorem execute_nl_body_retry (env : Env) (t : NaturalLanguageTask) :
    (execute_nl_body env t).1.retry_count = t.retry_count + 1 := by
  unfold execute_nl_body
  cases h : t.generated_conditions <;> simp [h]

/-- One natural-language attempt increments the counter by at most one
(by zero exactly when command synthesis raises). -/
theorem execute_natural_language_task_retry_le (env : Env)
    (t : NaturalLanguageTask) :
    (execute_natural_language_task env t).1.retry_count ≤ t.retry_count + 1 := by
  unfold execute_natural_language_task
  cases hc : t.generated_command with
  | none =>
    cases hg : generate_command_from_description env t.description t.timeout with
    | error e => simp
    | ok cmd => simp [execute_nl_body_retry]
  | some c => simp [execute_nl_body_retry]

/-- The improvement-subtask branch never touches the main task's
attempt counter (only the subtask list). -/
theorem execute_improvement_subtasks_retry (env : Env)
    (t : NaturalLanguageTask) :
    (execute_improvement_subtasks env t).1.retry_count = t.retry_count := by
  unfold execute_improvement_subtasks
  rcases h : t.subtasks with _ | ⟨_ | ⟨s, rest⟩⟩ <;> simp [h]

/-- The failure-analysis branch never touches the main task's attempt
counter (only, on success, the generated command). -/
theorem analyze_and_improve_retry (env : Env) (t : NaturalLanguageTask) :
    (analyze_and_improve env t).1.retry_count = t.retry_count := by
  unfold analyze_and_improve
  cases h : analyze_failure_and_improve env t t.timeout with
  | error e => simp
  | ok imp =>
    by_cases hs : (execute_natural_language_task env
        ((create_subtask_for_improvement env t analyzeImprovementRequest
          t.timeout).setGeneratedCommand (some imp))).2.1 <;>
      simp [hs]

/-- Every branch of `create_subtask_for_improvement` yields a fresh
subtask: derived id, attempt budget 2, timeout 120, counter zero, no
recorded output or error, a present command and condition set, and no
subtasks of its own. -/
theorem create_subtask_shape (env : Env) (main : NaturalLanguageTask)
    (improvement : String) (tm : Nat) :
    ∃ nm ds cmd conds,
      create_subtask_for_improvement env main improvement tm =
        .mk (main.id ++ "_sub_" ++ toString (main.retry_count + 1)) nm ds
          2 120 0 none none (some cmd) (some conds) none := by
  unfold create_subtask_for_improvement default_subtask
  cases env.claudeCode (subtaskSynthesisPrompt main.name improvement) tm with
  | completed rc out err =>
    by_cases hrc : rc = 0
    · simp only [if_pos hrc]
      cases loadJsonFromStdout env out with
      | none => exact ⟨_, _, _, _, rfl⟩
      | some pj =>
        cases pj with
        | list cs => exact ⟨_, _, _, _, rfl⟩
        | dict nm ds cmd conds => exact ⟨_, _, _, _, rfl⟩
        | other => exact ⟨_, _, _, _, rfl⟩
    · simp only [if_neg hrc]
      exact ⟨_, _, _, _, rfl⟩
  | timedOut => exact ⟨_, _, _, _, rfl⟩
  | raised m => exact ⟨_, _, _, _, rfl⟩

/-- The plain retry loop with `remaining` attempts left adds exactly one
to the counter per attempt: the final counter is bounded by the initial
counter plus `remaining`, with equality whenever the loop reports
non-completion. -/
theorem task_loop_retry_bound (env : Nat → Env) :
    ∀ (remaining attempt : Nat) (t t' : Task) (b : Bool) (tr : List Event),
      task_loop env attempt remaining t = .ok (t', b, tr) →
      t'.retry_count ≤ t.retry_count + remaining ∧
      (b = false → t'.retry_count = t.retry_count + remaining) := by
  intro remaining
  induction remaining with
  | zero =>
    intro a t t' b tr h
    unfold task_loop at h
    simp only [Except.ok.injEq, Prod.mk.injEq] at h
    obtain ⟨h1, h2, _⟩ := h
    subst h1; subst h2
    simp
  | succ n ih =>
    intro a t t' b tr h
    unfold task_loop at h
    dsimp only [] at h
    cases hc : task_check_completion_conditions (env a) (execute_task (env a) t).1 with
    | error k => rw [hc] at h; simp at h
    | ok met =>
      rw [hc] at h
      cases met with
      | true =>
        simp only [Except.ok.injEq, Prod.mk.injEq] at h
        obtain ⟨h1, h2, _⟩ := h
        subst h1; subst h2
        constructor
        · rw [execute_task_retry]; omega
        · intro hb; cases hb
      | false =>
        simp only [] at h
        cases hr : task_loop env (a + 1) n (execute_task (env a) t).1 with
        | error k => rw [hr] at h; simp at h
        | ok s =>
          rw [hr] at h
          obtain ⟨s1, sb, str⟩ := s
          simp only [Except.ok.injEq, Prod.mk.injEq] at h
          obtain ⟨h1, h2, _⟩ := h
          subst h1; subst h2
          have hrec := ih (a + 1) (execute_task (env a) t).1 s1 sb str hr
          rw [execute_task_retry] at hrec
          obtain ⟨hle, heq⟩ := hrec
          constructor
          · omega
          · intro hb
            have := heq hb
            omega

/-- The natural-language retry loop with `remaining` attempts left adds
at most one to the main task's counter per attempt. -/
theorem nl_loop_retry_bound (env : Nat → Env) :
    ∀ (remaining attempt : Nat) (t t' : NaturalLanguageTask) (b : Bool)
      (tr : List Event),
      nl_loop env attempt remaining t = .ok (t', b, tr) →
      t'.retry_count ≤ t.retry_count + remaining := by
  intro remaining
  induction remaining with
  | zero =>
    intro a t t' b tr h
    unfold nl_loop at h
    simp only [Except.ok.injEq, Prod.mk.injEq] at h
    obtain ⟨h1, _, _⟩ := h
    subst h1
    simp
  | succ n ih =>
    intro a t t' b tr h
    unfold nl_loop at h
    dsimp only [] at h
    cases hc : nl_check_completion_conditions (env a)
        (execute_natural_language_task (env a) t).1 with
    | error k => rw [hc] at h; simp at h
    | ok met =>
      rw [hc] at h
      cases met with
      | true =>
        simp only [Except.ok.injEq, Prod.mk.injEq] at h
        obtain ⟨h1, _, _⟩ := h
        subst h1
        have := execute_natural_language_task_retry_le (env a) t
        omega
      | false =>
        have hexec := execute_natural_language_task_retry_le (env a) t
        by_cases hs : (execute_natural_language_task (env a) t).2.1
        · rw [if_pos hs] at h
          by_cases hq : (execute_improvement_subtasks (env a)
              (execute_natural_language_task (env a) t).1).2.1
          · rw [if_pos hq] at h
            cases hr : nl_loop env (a + 1) n (execute_improvement_subtasks (env a)
                (execute_natural_language_task (env a) t).1).1 with
            | error k => rw [hr] at h; simp at h
            | ok s =>
              rw [hr] at h
              obtain ⟨s1, sb, str⟩ := s
              simp only [Except.ok.injEq, Prod.mk.injEq] at h
              obtain ⟨h1, _, _⟩ := h
              subst h1
              have hrec := ih (a + 1) _ s1 sb str hr
              rw [execute_improvement_subtasks_retry] at hrec
              omega
          · rw [if_neg hq] at h
            cases hr : nl_loop env (a + 1) n (execute_improvement_subtasks (env a)
                (execute_natural_language_task (env a) t).1).1 with
            | error k => rw [hr] at h; simp at h
            | ok s =>
              rw [hr] at h
              obtain ⟨s1, sb, str⟩ := s
              simp only [Except.ok.injEq, Prod.mk.injEq] at h
              obtain ⟨h1, _, _⟩ := h
              subst h1
              have hrec := ih (a + 1) _ s1 sb str hr
              rw [execute_improvement_subtasks_retry] at hrec
              omega
        · rw [if_neg hs] at h
          by_cases hq : (analyze_and_improve (env a)
              (execute_natural_language_task (env a) t).1).2.1
          · rw [if_pos hq] at h
            cases hr : nl_loop env (a + 1) n (analyze_and_improve (env a)
                (execute_natural_language_task (env a) t).1).1 with
            | error k => rw [hr] at h; simp at h
            | ok s =>
              rw [hr] at h
              obtain ⟨s1, sb, str⟩ := s
              simp only [Except.ok.injEq, Prod.mk.injEq] at h
              obtain ⟨h1, _, _⟩ := h
              subst h1
              have hrec := ih (a + 1) _ s1 sb str hr
              rw [analyze_and_improve_retry] at hrec
              omega
          · rw [if_neg hq] at h
            cases hr : nl_loop env (a + 1) n (analyze_and_improve (env a)
                (execute_natural_language_task (env a) t).1).1 with
            | error k => rw [hr] at h; simp at h
            | ok s =>
              rw [hr] at h
              obtain ⟨s1, sb, str⟩ := s
              simp only [Except.ok.injEq, Prod.mk.injEq] at h
              obtain ⟨h1, _, _⟩ := h
              subst h1
              have hrec := ih (a + 1) _ s1 sb str hr
              rw [analyze_and_improve_retry] at hrec
              omega

/-! Claim theorems. -/

/-- C1, counterexample: on a task with an empty completion-condition
sequence, `check_all_conditions` returns true (the claim says it
returns false), and the plain retry loop therefore reports the task
complete on its first attempt even though the command itself failed. -/
theorem c1_counterexample :
    check_all_conditions envTriv taskEmptyConds = .ok true ∧
    taskResultVerdict (execute_task_until_completion envTrivSeq taskEmptyConds) =
      some true :=
  ⟨rfl, rfl⟩

/-- C1, amended: `check_all_conditions` evaluates an empty condition
sequence to "complete" (vacuous truth), so a plain task with zero
declared conditions auto-completes; only the natural-language checker
`_check_completion_conditions` treats an absent or empty condition
sequence as "not complete". -/
theorem c1_amended :
    (∀ (env : Env) (t : Task), t.completion_conditions = [] →
      check_all_conditions env t = .ok true) ∧
    (∀ (env : Env) (nt : NaturalLanguageTask),
      nt.generated_conditions = none ∨ nt.generated_conditions = some [] →
      nl_check_completion_conditions env nt = .ok false) := by
  constructor
  · intro env t h
    unfold check_all_conditions
    rw [h]
    rfl
  · intro env nt h
    unfold nl_check_completion_conditions
    rcases h with h | h <;> rw [h]

/-- C1, witness: the amended statement applied at a concrete empty-
condition plain task and a concrete unsynthesised natural-language
task. -/
theorem c1_witness :
    taskEmptyConds.completion_conditions = [] ∧
    check_all_conditions envTriv taskEmptyConds = .ok true ∧
    nlTaskFresh.generated_conditions = none ∧
    nl_check_completion_conditions envTriv nlTaskFresh = .ok false :=
  ⟨rfl, c1_amended.1 envTriv taskEmptyConds rfl, rfl,
   c1_amended.2 envTriv nlTaskFresh (Or.inl rfl)⟩

/-- C6: `should_apply_cool_down` returns false exactly when the attempt
counter is zero or no error is recorded, and its verdict does not
depend on the recorded error's content (the "same error" comparison is
never performed). -/
theorem c6_cool_down_decision :
    ∀ t : Task,
      (should_apply_cool_down t = false ↔
        (t.retry_count = 0 ∨ t.last_error = none)) ∧
      (∀ e1 e2 : String,
        should_apply_cool_down { t with last_error := some e1 } =
        should_apply_cool_down { t with last_error := some e2 }) := by
  intro t
  constructor
  · constructor
    · intro hf
      by_contra hcon
      push_neg at hcon
      obtain ⟨h1, h2⟩ := hcon
      unfold should_apply_cool_down should_apply_cool_down_core at hf
      rw [if_neg] at hf
      · exact Bool.true_eq_false_eq_False hf
      · simp [h1, Option.isNone_iff_eq_none, h2]
    · intro hor
      unfold should_apply_cool_down should_apply_cool_down_core
      rcases hor with h | h <;> simp [h]
  · intro e1 e2
    simp [should_apply_cool_down, should_apply_cool_down_core]

/-- C7: an `output_not_contains` condition evaluated against a task
with no captured output is vacuously true, whatever the pattern (even
an absent one). -/
theorem c7_output_not_contains_vacuous (env : Env) (c : Condition) (t : Task)
    (htype : c.type = some "output_not_contains")
    (hout : t.last_output = none) :
    check_condition env c t = .ok true := by
  have hk : condKindOf c.type = .kOutputNotContains := by rw [htype]; rfl
  unfold check_condition check_condition_out
  rw [hk, hout]

/-- C7, witness: the vacuous-truth statement at a concrete condition
and a concrete output-less task. -/
theorem c7_witness :
    condNotContains.type = some "output_not_contains" ∧
    taskEmptyConds.last_output = none ∧
    check_condition envTriv condNotContains taskEmptyConds = .ok true :=
  ⟨rfl, rfl,
   c7_output_not_contains_vacuous envTriv condNotContains taskEmptyConds rfl rfl⟩

/-- C10: when an attempt's command execution succeeds, the recorded
error is overwritten to `None`, so the cooldown decision for the
resulting task state is false. -/
theorem c10_no_cooldown_after_success (env : Env) (t : Task)
    (h : (execute_task env t).2.1 = true) :
    (execute_task env t).1.last_error = none ∧
    should_apply_cool_down (execute_task env t).1 = false := by
  have herr : (execute_command env t.command t.timeout).error = none :=
    execute_command_success_error env t.command t.timeout h
  constructor
  · exact herr
  · unfold should_apply_cool_down should_apply_cool_down_core
    rw [show (execute_task env t).1.last_error =
        (execute_command env t.command t.timeout).error from rfl, herr]
    simp

/-- C10, witness: a concrete succeeding attempt, with the success
hypothesis discharged by computation. -/
theorem c10_witness :
    (execute_task envAssistOk taskEmptyConds).2.1 = true ∧
    ((execute_task envAssistOk taskEmptyConds).1.last_error = none ∧
     should_apply_cool_down (execute_task envAssistOk taskEmptyConds).1 = false) :=
  ⟨rfl, c10_no_cooldown_after_success envAssistOk taskEmptyConds rfl⟩

/-- C3, counterexample: a `file_exists` condition with no `path`
parameter makes `check_condition` raise a `KeyError` (modelled
`Except.error "path"`) instead of returning false with a warning, and
that fault propagates out of the retry loop, aborting the task. -/
theorem c3_counterexample :
    check_condition envTriv condMissingPath taskEmptyConds = .error "path" ∧
    execute_task_until_completion envTrivSeq taskBadCondition = .error "path" :=
  ⟨rfl, rfl⟩

/-- C3, amended: only the `website_exists`/`test_command`/
`claude_code_confirmation` kinds treat a missing required parameter as
false-with-a-warning; the `path` and `pattern` parameters of the other
kinds are read by subscript, so their absence raises a `KeyError`
(except that `output_contains`/`output_not_contains` never reach the
pattern read while no output is captured), and that error propagates
through `check_all_conditions` rather than evaluation continuing. -/
theorem c3_amended :
    (∀ (env : Env) (c : Condition) (lo : Option String),
      condKindOf c.type = .kWebsiteExists → c.url = none →
      check_condition_out env c lo = .ok false) ∧
    (∀ (env : Env) (c : Condition) (lo : Option String),
      condKindOf c.type = .kTestCommand → c.command = none →
      check_condition_out env c lo = .ok false) ∧
    (∀ (env : Env) (c : Condition) (lo : Option String),
      condKindOf c.type = .kClaudeConfirmation → c.prompt = none →
      check_condition_out env c lo = .ok false) ∧
    (∀ (env : Env) (c : Condition) (lo : Option String),
      condKindOf c.type = .kFileExists → c.path = none →
      check_condition_out env c lo = .error "path") ∧
    (∀ (env : Env) (c : Condition) (o : String),
      condKindOf c.type = .kOutputContains → c.pattern = none →
      check_condition_out env c (some o) = .error "pattern") ∧
    (∀ (env : Env) (c : Condition) (o : String),
      condKindOf c.type = .kOutputNotContains → c.pattern = none →
      check_condition_out env c (some o) = .error "pattern") ∧
    (∀ (env : Env) (c : Condition) (lo : Option String),
      condKindOf c.type = .kFileContains → c.path = none →
      check_condition_out env c lo = .error "path") ∧
    (∀ (env : Env) (c : Condition) (lo : Option String) (p : String),
      condKindOf c.type = .kFileContains → c.path = some p → c.pattern = none →
      check_condition_out env c lo = .error "pattern") ∧
    (∀ (env : Env) (t : Task) (rest : List Condition),
      t.completion_conditions = condMissingPath :: rest →
      check_all_conditions env t = .error "path") := by
  refine ⟨?_, ?_, ?_, ?_, ?_, ?_, ?_, ?_, ?_⟩
  · intro env c lo hk hu
    unfold check_condition_out
    rw [hk, hu]
  · intro env c lo hk hu
    unfold check_condition_out
    rw [hk, hu]
  · intro env c lo hk hu
    unfold check_condition_out
    rw [hk, hu]
  · intro env c lo hk hu
    unfold check_condition_out
    rw [hk, hu]
  · intro env c o hk hu
    unfold check_condition_out
    rw [hk, hu]
  · intro env c o hk hu
    unfold check_condition_out
    rw [hk, hu]
  · intro env c lo hk hu
    unfold check_condition_out
    rw [hk, hu]
  · intro env c lo p hk hp hu
    unfold check_condition_out
    rw [hk, hp, hu]
  · intro env t rest h
    unfold check_all_conditions
    rw [h]
    rfl

/-- C3, witness: the amended statement at a concrete missing-url
condition (absorbed as false) and a concrete missing-path condition
(raises). -/
theorem c3_witness :
    condKindOf condMissingUrl.type = .kWebsiteExists ∧
    condMissingUrl.url = none ∧
    check_condition_out envTriv condMissingUrl none = .ok false ∧
    condKindOf condMissingPath.type = .kFileExists ∧
    condMissingPath.path = none ∧
    check_condition_out envTriv condMissingPath none = .error "path" :=
  ⟨rfl, rfl, c3_amended.1 envTriv condMissingUrl none rfl rfl, rfl, rfl,
   c3_amended.2.2.2.1 envTriv condMissingPath none rfl rfl⟩

/-- C9, counterexample: on a task with no captured output and an empty
pattern, the two evaluators disagree about `output_contains`:
`check_condition` says false, `ConditionChecker._check_single_condition`
says true (the empty pattern is a substring of the `""` default). -/
theorem c9_counterexample :
    check_condition envTriv condEmptyPattern taskEmptyConds = .ok false ∧
    checker_check_single_condition envTriv condEmptyPattern taskEmptyConds =
      .ok true :=
  ⟨rfl, rfl⟩

/-- C9, amended: the two evaluators agree on every condition except
where output is uncaptured with an empty-or-missing pattern (output
kinds), and where the `url`/`command`/`prompt` parameter is missing or
empty (`check_condition` warns false, the checker raises or probes). -/
theorem c9_amended (env : Env) (c : Condition) (t : Task)
    (hout : (condKindOf c.type = .kOutputContains ∨
             condKindOf c.type = .kOutputNotContains) →
      t.last_output ≠ none ∨ ∃ p, c.pattern = some p ∧ p ≠ "")
    (hweb : condKindOf c.type = .kWebsiteExists →
      ∃ u, c.url = some u ∧ u ≠ "")
    (htest : condKindOf c.type = .kTestCommand →
      ∃ u, c.command = some u ∧ u ≠ "")
    (hconf : condKindOf c.type = .kClaudeConfirmation →
      ∃ u, c.prompt = some u ∧ u ≠ "") :
    check_condition env c t = checker_check_single_condition env c t := by
  unfold check_condition checker_check_single_condition
  unfold check_condition_out checker_check_single_condition_out
  cases hk : condKindOf c.type with
  | kFileExists => cases hp : c.path <;> simp [check_file_exists]
  | kOutputContains =>
    rcases hout (Or.inl hk) with hlo | ⟨p, hp, hpn⟩
    · cases ho : t.last_output with
      | none => exact absurd ho hlo
      | some out =>
        cases hpat : c.pattern <;>
          simp [ho, hpat, check_output_contains, Option.getD]
    · cases ho : t.last_output with
      | some out => simp [ho, hp, check_output_contains, Option.getD]
      | none => simp [ho, hp, Option.getD, strContains_empty_string p hpn]
  | kOutputNotContains =>
    rcases hout (Or.inr hk) with hlo | ⟨p, hp, hpn⟩
    · cases ho : t.last_output with
      | none => exact absurd ho hlo
      | some out =>
        cases hpat : c.pattern <;>
          simp [ho, hpat, check_output_not_contains, Option.getD]
    · cases ho : t.last_output with
      | some out => simp [ho, hp, check_output_not_contains, Option.getD]
      | none => simp [ho, hp, Option.getD, strContains_empty_string p hpn]
  | kFileContains =>
    cases hp : c.path <;> cases hpat : c.pattern <;>
      simp [check_file_contains]
  | kWebsiteExists =>
    obtain ⟨u, hu, hun⟩ := hweb hk
    simp [hu, hun, check_website_exists]
  | kTestCommand =>
    obtain ⟨u, hu, hun⟩ := htest hk
    simp [hu, hun, execute_test_command]
  | kClaudeConfirmation =>
    obtain ⟨u, hu, hun⟩ := hconf hk
    simp [hu, hun, check_claude_code_confirmation]
  | kUnknown => rfl

/-- C9, witness: agreement at a concrete `output_contains` condition
with captured output, all side conditions discharged by computation. -/
theorem c9_witness :
    check_condition envTriv condContainsX taskWithOutput =
      checker_check_single_condition envTriv condContainsX taskWithOutput :=
  c9_amended envTriv condContainsX taskWithOutput
    (fun _ => Or.inl (by decide))
    (fun h => absurd h (by decide))
    (fun h => absurd h (by decide))
    (fun h => absurd h (by decide))

/-- C8: in the corrective branch after a failed attempt, the repaired
command is promoted to be the main task's action exactly when the
corrective subtask carrying it succeeds; when the subtask fails (or the
analysis itself raises) the main task is left entirely unchanged. -/
theorem c8_promotion (env : Env) (t : NaturalLanguageTask) :
    ((analyze_and_improve env t).2.1 = true →
      ∃ c, analyze_failure_and_improve env t t.timeout = .ok c ∧
        (analyze_and_improve env t).1 = t.setGeneratedCommand (some c)) ∧
    ((analyze_and_improve env t).2.1 = false →
      (analyze_and_improve env t).1 = t) := by
  unfold analyze_and_improve
  cases ha : analyze_failure_and_improve env t t.timeout with
  | error e => exact ⟨fun h => absurd h (by simp), fun _ => rfl⟩
  | ok imp =>
    dsimp only
    by_cases hp : (execute_natural_language_task env
        ((create_subtask_for_improvement env t analyzeImprovementRequest
          t.timeout).setGeneratedCommand (some imp))).2.1
    · rw [if_pos hp]
      exact ⟨fun _ => ⟨imp, rfl, rfl⟩, fun h => absurd h (by simp)⟩
    · rw [if_neg hp]
      exact ⟨fun h => absurd h (by simp), fun _ => rfl⟩

/-- C8, witness: a concrete corrective branch whose subtask succeeds,
showing the promotion. -/
theorem c8_witness :
    (analyze_and_improve envAssistOk nlTaskFresh).2.1 = true ∧
    ∃ c, analyze_failure_and_improve envAssistOk nlTaskFresh
        nlTaskFresh.timeout = .ok c ∧
      (analyze_and_improve envAssistOk nlTaskFresh).1 =
        nlTaskFresh.setGeneratedCommand (some c) :=
  ⟨rfl, (c8_promotion envAssistOk nlTaskFresh).1 rfl⟩

/-- C5: every corrective subtask is built with attempt budget 2,
timeout 120 and no owned subtasks; the failure-analysis branch executes
at most one command, always under the subtask's 120-second bound (a
single plain execution, never a nested improvement loop); and the
improvement branch, when it has to spawn, stores exactly one fresh
subtask, executes exactly one command under the 120-second bound, and
the stored subtask still owns no sub-subtasks. -/
theorem c5_subtask_single_level :
    (∀ (env : Env) (main : NaturalLanguageTask) (improvement : String) (tm : Nat),
      (create_subtask_for_improvement env main improvement tm).max_retries = 2 ∧
      (create_subtask_for_improvement env main improvement tm).timeout = 120 ∧
      (create_subtask_for_improvement env main improvement tm).retry_count = 0 ∧
      (create_subtask_for_improvement env main improvement tm).subtasks = none) ∧
    (∀ (env : Env) (t : NaturalLanguageTask),
      (analyze_and_improve env t).2.2 = [] ∨
      ∃ c, (analyze_and_improve env t).2.2 = [Event.ran c 120]) ∧
    (∀ (env : Env) (t : NaturalLanguageTask), t.subtasks = none →
      (∃ c, (execute_improvement_subtasks env t).2.2 = [Event.ran c 120]) ∧
      ∃ s, (execute_improvement_subtasks env t).1.subtasks = some [s] ∧
        s.subtasks = none ∧ s.max_retries = 2 ∧ s.timeout = 120) := by
  refine ⟨?_, ?_, ?_⟩
  · intro env main improvement tm
    obtain ⟨nm, ds, cmd, conds, hshape⟩ :=
      create_subtask_shape env main improvement tm
    rw [hshape]
    exact ⟨rfl, rfl, rfl, rfl⟩
  · intro env t
    cases ha : analyze_failure_and_improve env t t.timeout with
    | error e => left; unfold analyze_and_improve; rw [ha]
    | ok imp =>
      right
      obtain ⟨nm, ds, cmd, conds, hshape⟩ :=
        create_subtask_shape env t analyzeImprovementRequest t.timeout
      refine ⟨imp, ?_⟩
      unfold analyze_and_improve
      rw [ha]
      dsimp only
      rw [hshape]
      split
      · rfl
      · rfl
  · intro env t hsub
    obtain ⟨nm, ds, cmd, conds, hshape⟩ :=
      create_subtask_shape env t improvementRequest t.timeout
    unfold execute_improvement_subtasks
    rw [hsub]
    dsimp only
    rw [hshape]
    simp only [NaturalLanguageTask.subtasks_setSubtasks, Option.getD]
    constructor
    · refine ⟨cmd, ?_⟩
      unfold run_subtask_list
      dsimp only
      split
      · rfl
      · rfl
    · refine ⟨?_, ?_⟩
      · exact (NaturalLanguageTask.mk
          (t.id ++ "_sub_" ++ toString (t.retry_count + 1)) nm ds 2 120 0
          none none (some cmd) (some conds) none).recordExecution
          (execute_command env cmd 120).output
          (execute_command env cmd 120).error
      · unfold run_subtask_list
        dsimp only
        split
        · exact ⟨rfl, rfl, rfl, rfl⟩
        · exact ⟨rfl, rfl, rfl, rfl⟩

/-- C5, witness: the spawn-case statement at a concrete task owning no
subtasks. -/
theorem c5_witness :
    nlTaskFresh.subtasks = none ∧
    ((∃ c, (execute_improvement_subtasks envTriv nlTaskFresh).2.2 =
        [Event.ran c 120]) ∧
     ∃ s, (execute_improvement_subtasks envTriv nlTaskFresh).1.subtasks =
        some [s] ∧ s.subtasks = none ∧ s.max_retries = 2 ∧ s.timeout = 120) :=
  ⟨rfl, c5_subtask_single_level.2.2 envTriv nlTaskFresh rfl⟩

/-- C2, counterexample: with command synthesis raising on attempt 1 and
the failure-analysis branch then promoting a repaired command, the
retry loop neither aborts nor leaves the counter at zero: it goes on to
execute the promoted command, ending with one attempt consumed
(`retry_count = 1`, not `0`) before reporting false. -/
theorem c2_counterexample :
    synthesisRaised (generate_command_from_description (envC2Seq 1)
      nlTaskFresh.description nlTaskFresh.timeout) = true ∧
    nlResultCount (execute_natural_language_task_until_completion envC2Seq
      nlTaskFresh) = some 1 ∧
    nlResultVerdict (execute_natural_language_task_until_completion envC2Seq
      nlTaskFresh) = some false :=
  ⟨rfl, rfl, rfl⟩

/-- C2, amended: when initial command synthesis raises, that single
attempt (`execute_natural_language_task`) reports false immediately —
only the error text is stored; the counter, the captured output and the
(absent) command are untouched and nothing is executed or waited on.
The enclosing retry loop, however, does not abort: it proceeds to the
corrective branch and to further attempts, which can consume attempts
(see the counterexample). -/
theorem c2_amended (env : Env) (t : NaturalLanguageTask) (msg : String)
    (hc : t.generated_command = none)
    (hs : generate_command_from_description env t.description t.timeout =
      .error msg) :
    execute_natural_language_task env t = (t.setLastError (some msg), false, []) ∧
    (execute_natural_language_task env t).1.retry_count = t.retry_count ∧
    (execute_natural_language_task env t).1.last_output = t.last_output ∧
    (execute_natural_language_task env t).1.generated_command = none := by
  have h1 : execute_natural_language_task env t =
      (t.setLastError (some msg), false, []) := by
    unfold execute_natural_language_task
    rw [hc, hs]
  refine ⟨h1, ?_, ?_, ?_⟩ <;> rw [h1] <;> simp [hc]

/-- C2, witness: the amended statement at a concrete unsynthesised task
in a world whose assistant raises. -/
theorem c2_witness :
    nlTaskFresh.generated_command = none ∧
    generate_command_from_description envTriv nlTaskFresh.description
      nlTaskFresh.timeout =
      .error "Claude Codeの実行中にエラーが発生しました: assistant unavailable" ∧
    (execute_natural_language_task envTriv nlTaskFresh =
      (nlTaskFresh.setLastError
        (some "Claude Codeの実行中にエラーが発生しました: assistant unavailable"),
       false, []) ∧
     (execute_natural_language_task envTriv nlTaskFresh).1.retry_count =
       nlTaskFresh.retry_count ∧
     (execute_natural_language_task envTriv nlTaskFresh).1.last_output =
       nlTaskFresh.last_output ∧
     (execute_natural_language_task envTriv nlTaskFresh).1.generated_command =
       none) :=
  ⟨rfl, rfl, c2_amended envTriv nlTaskFresh _ rfl rfl⟩

/-- C4, counterexample: a natural-language task whose command synthesis
always raises finishes the whole loop with `retry_count = 0` even
though `max_retries = 1` and the completion conditions were never
satisfied — the "exactly `max_retries` when never complete" half of the
claim fails for the natural-language loop. -/
theorem c4_counterexample :
    nlTaskOneShot.max_retries = 1 ∧
    nlResultCount (execute_natural_language_task_until_completion envTrivSeq
      nlTaskOneShot) = some 0 ∧
    nlResultVerdict (execute_natural_language_task_until_completion envTrivSeq
      nlTaskOneShot) = some false :=
  ⟨rfl, rfl, rfl⟩

/-- C4, amended: for both loops the final counter never exceeds
`max_retries`; for the plain loop it moreover equals `max_retries`
exactly whenever the loop reports non-completion.  For the
natural-language loop only the upper bound holds: an attempt whose
initial command synthesis raises consumes no counter increment, so the
final count can fall short of `max_retries` (see the
counterexample). -/
theorem c4_amended :
    (∀ (env : Nat → Env) (t t' : Task) (b : Bool) (tr : List Event),
      t.retry_count = 0 →
      execute_task_until_completion env t = .ok (t', b, tr) →
      t'.retry_count ≤ t.max_retries ∧
      (b = false → t'.retry_count = t.max_retries)) ∧
    (∀ (env : Nat → Env) (t t' : NaturalLanguageTask) (b : Bool)
      (tr : List Event),
      t.retry_count = 0 →
      execute_natural_language_task_until_completion env t = .ok (t', b, tr) →
      t'.retry_count ≤ t.max_retries) := by
  constructor
  · intro env t t' b tr h0 h
    have hb := task_loop_retry_bound env t.max_retries 1 t t' b tr h
    rw [h0] at hb
    simpa using hb
  · intro env t t' b tr h0 h
    have hb := nl_loop_retry_bound env t.max_retries 1 t t' b tr h
    rw [h0] at hb
    simpa using hb

/-- C4, witness: the plain-loop half at a concrete never-completing
task, which takes exactly its two budgeted attempts. -/
theorem c4_witness :
    taskNeverDone.retry_count = 0 ∧
    execute_task_until_completion envTrivSeq taskNeverDone =
      .ok (taskNeverDoneFinal, false, taskNeverDoneTrace) ∧
    (taskNeverDoneFinal.retry_count ≤ taskNeverDone.max_retries ∧
     (false = false →
       taskNeverDoneFinal.retry_count = taskNeverDone.max_retries)) :=
  ⟨rfl, rfl, c4_amended.1 envTrivSeq taskNeverDone taskNeverDoneFinal false
    taskNeverDoneTrace rfl rfl⟩

end Loopai
